import Mathlib

/-!
Verification of the risk-detection and metrics-aggregation core of the
employee sales/distribution monitoring repository.

The TypeScript source is shallowly embedded:
* numbers (JS floats holding currency amounts, rates, hours, distances) are
  modelled as rationals `ℚ`; timestamps as integers (milliseconds);
* `parseFloat(x.toFixed(n))` is modelled as exact rounding to `n` decimal
  places over `ℚ`;
* database reads are modelled as explicit lists of records passed in, and a
  fallible read as an `Except` value;
* each `async` rule check becomes a pure function of the records it queries,
  with failure propagation modelled by `Except` bind, mirroring the
  `Promise.all` rejection semantics of `runFraudDetectionRules`.

Flag `message` strings (template interpolations) are not modelled; the
structured `meta` payloads and all numeric/decision logic are.
-/

/-- `FlagSeverity` enum from the Prisma schema (`INFO | WARN | HIGH`). -/
inductive FlagSeverity where
  | INFO
  | WARN
  | HIGH
deriving DecidableEq, Repr

/-- `EntityType` enum from the Prisma schema. -/
inductive EntityType where
  | SALES_REP
  | OUTLET
  | ORDER
  | PRODUCT
  | VISIT
deriving DecidableEq, Repr

/-- `OrderStatus` enum from the Prisma schema. -/
inductive OrderStatus where
  | CREATED
  | READY_TO_SHIP
  | DELIVERED
  | CANCELLED
deriving DecidableEq, Repr

/-- `VisitStatus` enum from the Prisma schema (`PENDING | VERIFIED | FLAGGED | REJECTED`). -/
inductive VisitStatus where
  | PENDING
  | VERIFIED
  | FLAGGED
  | REJECTED
deriving DecidableEq, Repr

/-- Rounding to `n` decimal places, the model of `parseFloat(x.toFixed(n))`
in `src/lib/metrics/computations.ts` (exact over `ℚ`; JS `toFixed` rounds
half away from zero on non-negative inputs, which `round` matches there). -/
def roundTo (n : ℕ) (q : ℚ) : ℚ :=
  (round (q * (10 : ℚ) ^ n) : ℤ) / (10 : ℚ) ^ n

/-- `calculateMedian` from `src/lib/metrics/computations.ts` lines 91-96:
sorts a copy ascending (`[...values].sort((a, b) => a - b)`), returns the
middle element for odd length, the average of the two central elements for
even length, and `0` for the empty list. -/
def calculateMedian (values : List ℚ) : ℚ :=
  if values.length = 0 then 0
  else
    let sorted := values.mergeSort (fun a b => a ≤ b)
    let mid := sorted.length / 2
    if sorted.length % 2 ≠ 0 then sorted.getD mid 0
    else (sorted.getD (mid - 1) 0 + sorted.getD mid 0) / 2

-- Rule configuration constants, `FRAUD_RULES` in `src/lib/fraud/rules.ts`.

/-- `FRAUD_RULES.HIGH_CANCEL_RATE_WARN` (15%). -/
def FRAUD_RULES_HIGH_CANCEL_RATE_WARN : ℚ := 0.15

/-- `FRAUD_RULES.HIGH_CANCEL_RATE_HIGH` (25%). -/
def FRAUD_RULES_HIGH_CANCEL_RATE_HIGH : ℚ := 0.25

/-- `FRAUD_RULES.END_OF_MONTH_SPIKE_WARN` (1.5x expected). -/
def FRAUD_RULES_END_OF_MONTH_SPIKE_WARN : ℚ := 1.5

/-- `FRAUD_RULES.END_OF_MONTH_SPIKE_HIGH` (2x expected). -/
def FRAUD_RULES_END_OF_MONTH_SPIKE_HIGH : ℚ := 2.0

/-- `FRAUD_RULES.PRE_SHIP_CANCEL_HOURS` (within 24 hours of ship date). -/
def FRAUD_RULES_PRE_SHIP_CANCEL_HOURS : ℚ := 24

/-- `FRAUD_RULES.PRE_SHIP_CANCEL_RATE_WARN` (10% of cancellations). -/
def FRAUD_RULES_PRE_SHIP_CANCEL_RATE_WARN : ℚ := 0.1

/-- `FRAUD_RULES.PRE_SHIP_CANCEL_RATE_HIGH` (20% of cancellations). -/
def FRAUD_RULES_PRE_SHIP_CANCEL_RATE_HIGH : ℚ := 0.2

/-- `FRAUD_RULES.ABNORMAL_ORDER_MULTIPLIER_WARN` (3x median). -/
def FRAUD_RULES_ABNORMAL_ORDER_MULTIPLIER_WARN : ℚ := 3

/-- `FRAUD_RULES.ABNORMAL_ORDER_MULTIPLIER_HIGH` (5x median). -/
def FRAUD_RULES_ABNORMAL_ORDER_MULTIPLIER_HIGH : ℚ := 5

/-- `FRAUD_RULES.MIN_ORDERS_FOR_ANALYSIS` (minimum samples for analysis). -/
def FRAUD_RULES_MIN_ORDERS_FOR_ANALYSIS : ℕ := 5

/-- Structured `meta` payload attached to an audit flag, one variant per
rule code (the source stores these as `Record<string, unknown>` object
literals; each variant carries exactly the fields that rule attaches). -/
inductive FlagMeta where
  | cancelRateMeta (entityCode entityName : String) (cancelRate : ℚ)
      (totalOrders cancelledOrders : ℕ)
  | endOfMonthMeta (endOfMonthOrders restOfMonthOrders : ℕ)
      (percentage spikeRatio : ℚ) (expectedPercentage : Option ℚ)
  | preShipMeta (preShipCancellations totalCancellations : ℕ)
      (percentage : ℚ) (thresholdHours : Option ℚ)
  | abnormalMeta (orderNumber outletId outletName : String)
      (orderAmount outletMedian ratio : ℚ)
  | distanceMeta (checkInLat checkInLng : ℚ) (outletLat outletLng : Option ℚ)
      (distance threshold : ℚ)
  | duplicateMeta (originalVisitId sha256 : String)
deriving DecidableEq, Repr

/-- `AuditFlagInput` from `src/lib/fraud/rules.ts` (also covers the
`prisma.auditFlag.create` payloads of the visit routes; the interpolated
`message` string is not modelled). -/
structure AuditFlagData where
  entityType : EntityType
  entityId : String
  ruleCode : String
  severity : FlagSeverity
  meta : FlagMeta
  orderId : Option String := none
  visitLogId : Option String := none
deriving DecidableEq, Repr

/-- `SalesRepMetrics` row produced by `getSalesRepMetrics`
(`src/lib/metrics/computations.ts`), as consumed by the rule engine. -/
structure SalesRepMetrics where
  salesRepId : String
  salesRepCode : String
  salesRepName : String
  totalOrders : ℕ
  cancelledOrders : ℕ
  cancelRate : ℚ
  totalRevenue : ℚ
  deliveredOrders : ℕ
deriving DecidableEq, Repr

/-- `OutletMetrics` row produced by `getOutletMetrics`
(`src/lib/metrics/computations.ts`), as consumed by the rule engine. -/
structure OutletMetrics where
  outletId : String
  outletCode : String
  outletName : String
  totalOrders : ℕ
  cancelledOrders : ℕ
  cancelRate : ℚ
  totalRevenue : ℚ
  avgOrderValue : ℚ
deriving DecidableEq, Repr

/-- The flag object pushed for a sales rep by `checkSalesRepCancelRates`
(`src/lib/fraud/rules.ts` lines 89-117); the HIGH and WARN branches push
the same fields apart from `severity`. -/
def mkRepCancelFlag (rep : SalesRepMetrics) (sev : FlagSeverity) : AuditFlagData :=
  { entityType := EntityType.SALES_REP
    entityId := rep.salesRepId
    ruleCode := "HIGH_CANCEL_RATE"
    severity := sev
    meta := FlagMeta.cancelRateMeta rep.salesRepCode rep.salesRepName
      rep.cancelRate rep.totalOrders rep.cancelledOrders }

/-- Loop body of `checkSalesRepCancelRates` (`src/lib/fraud/rules.ts`
lines 85-119): skip below the 5-sample gate, else HIGH at rate `≥ 0.25`,
else WARN at rate `≥ 0.15`, else nothing. -/
def repCancelFlags (rep : SalesRepMetrics) : List AuditFlagData :=
  if rep.totalOrders < FRAUD_RULES_MIN_ORDERS_FOR_ANALYSIS then []
  else if FRAUD_RULES_HIGH_CANCEL_RATE_HIGH ≤ rep.cancelRate then
    [mkRepCancelFlag rep FlagSeverity.HIGH]
  else if FRAUD_RULES_HIGH_CANCEL_RATE_WARN ≤ rep.cancelRate then
    [mkRepCancelFlag rep FlagSeverity.WARN]
  else []

/-- `checkSalesRepCancelRates` from `src/lib/fraud/rules.ts` lines 81-122:
the per-rep loop over the aggregator's `getSalesRepMetrics` rows. -/
def checkSalesRepCancelRates (metrics : List SalesRepMetrics) : List AuditFlagData :=
  metrics.flatMap repCancelFlags

/-- The flag object pushed for an outlet by `checkOutletCancelRates`
(`src/lib/fraud/rules.ts` lines 135-163). -/
def mkOutletCancelFlag (outlet : OutletMetrics) (sev : FlagSeverity) : AuditFlagData :=
  { entityType := EntityType.OUTLET
    entityId := outlet.outletId
    ruleCode := "HIGH_CANCEL_RATE"
    severity := sev
    meta := FlagMeta.cancelRateMeta outlet.outletCode outlet.outletName
      outlet.cancelRate outlet.totalOrders outlet.cancelledOrders }

/-- Loop body of `checkOutletCancelRates` (`src/lib/fraud/rules.ts`
lines 131-165): identical thresholds and gate to the sales-rep check. -/
def outletCancelFlags (outlet : OutletMetrics) : List AuditFlagData :=
  if outlet.totalOrders < FRAUD_RULES_MIN_ORDERS_FOR_ANALYSIS then []
  else if FRAUD_RULES_HIGH_CANCEL_RATE_HIGH ≤ outlet.cancelRate then
    [mkOutletCancelFlag outlet FlagSeverity.HIGH]
  else if FRAUD_RULES_HIGH_CANCEL_RATE_WARN ≤ outlet.cancelRate then
    [mkOutletCancelFlag outlet FlagSeverity.WARN]
  else []

/-- `checkOutletCancelRates` from `src/lib/fraud/rules.ts` lines 127-168. -/
def checkOutletCancelRates (metrics : List OutletMetrics) : List AuditFlagData :=
  metrics.flatMap outletCancelFlags

/-- The flags a flag list contains for one entity (type plus id). -/
def flagsForEntity (flags : List AuditFlagData) (t : EntityType) (eid : String) :
    List AuditFlagData :=
  flags.filter (fun f => f.entityType = t ∧ f.entityId = eid)

/-- An order row as fetched by `findAbnormalOrders`
(`src/lib/metrics/computations.ts` lines 370-386): the fields the
abnormal-order analysis reads, with the joined outlet name. -/
structure OrderRec where
  id : String
  orderNumber : String
  outletId : String
  outletName : String
  totalAmount : ℚ
deriving DecidableEq, Repr

/-- `AbnormalOrderAnalysis` record from `src/lib/metrics/computations.ts`. -/
structure AbnormalOrderAnalysis where
  orderId : String
  orderNumber : String
  outletId : String
  outletName : String
  orderAmount : ℚ
  outletMedian : ℚ
  ratio : ℚ
deriving DecidableEq, Repr

/-- The per-outlet median of `findAbnormalOrders`: `calculateMedian` over
the amounts of the window's orders grouped by `outletId`
(`src/lib/metrics/computations.ts` lines 389-399). -/
def outletMedian (orders : List OrderRec) (oid : String) : ℚ :=
  calculateMedian ((orders.filter (fun o => o.outletId = oid)).map OrderRec.totalAmount)

/-- The analysis record pushed by `findAbnormalOrders` for one order
(`src/lib/metrics/computations.ts` lines 409-417), with its 2-decimal
roundings. -/
def abnormalRecord (med : ℚ) (o : OrderRec) : AbnormalOrderAnalysis :=
  { orderId := o.id
    orderNumber := o.orderNumber
    outletId := o.outletId
    outletName := o.outletName
    orderAmount := roundTo 2 o.totalAmount
    outletMedian := roundTo 2 med
    ratio := roundTo 2 (o.totalAmount / med) }

/-- Loop body of `findAbnormalOrders` (`src/lib/metrics/computations.ts`
lines 404-420): skip when the outlet median is not positive (ratio
undefined), emit the record when `amount / median` reaches the
multiplier. -/
def abnormalEntry (med thresholdMultiplier : ℚ) (o : OrderRec) :
    Option AbnormalOrderAnalysis :=
  if 0 < med ∧ thresholdMultiplier ≤ o.totalAmount / med then
    some (abnormalRecord med o)
  else none

/-- `findAbnormalOrders` from `src/lib/metrics/computations.ts` lines
361-423: per-outlet medians over the same filtered window, threshold test
per order, result sorted descending by ratio. -/
def findAbnormalOrders (orders : List OrderRec) (thresholdMultiplier : ℚ) :
    List AbnormalOrderAnalysis :=
  (orders.filterMap (fun o =>
      abnormalEntry (outletMedian orders o.outletId) thresholdMultiplier o)).mergeSort
    (fun a b => b.ratio ≤ a.ratio)

/-- The flag object pushed by `checkAbnormalOrders` for an abnormal order
(`src/lib/fraud/rules.ts` lines 268-283 and 293-308; HIGH and WARN push
the same fields apart from `severity`). -/
def mkAbnormalFlag (a : AbnormalOrderAnalysis) (sev : FlagSeverity) : AuditFlagData :=
  { entityType := EntityType.ORDER
    entityId := a.orderId
    ruleCode := "ABNORMAL_ORDER_SIZE"
    severity := sev
    meta := FlagMeta.abnormalMeta a.orderNumber a.outletId a.outletName
      a.orderAmount a.outletMedian a.ratio
    orderId := some a.orderId }

/-- `checkAbnormalOrders` from `src/lib/fraud/rules.ts` lines 262-312:
computes the HIGH-threshold (5x) set first, then the WARN-threshold (3x)
set, skipping any order id already flagged HIGH. -/
def checkAbnormalOrders (orders : List OrderRec) : List AuditFlagData :=
  let highAbnormal := findAbnormalOrders orders FRAUD_RULES_ABNORMAL_ORDER_MULTIPLIER_HIGH
  let highFlags := highAbnormal.map (fun o => mkAbnormalFlag o FlagSeverity.HIGH)
  let warnAbnormal := findAbnormalOrders orders FRAUD_RULES_ABNORMAL_ORDER_MULTIPLIER_WARN
  let highOrderIds := highAbnormal.map AbnormalOrderAnalysis.orderId
  highFlags ++
    (warnAbnormal.filter (fun o => ¬ o.orderId ∈ highOrderIds)).map
      (fun o => mkAbnormalFlag o FlagSeverity.WARN)

/-- An order row as selected by the metrics queries
(`src/lib/metrics/computations.ts`): status, amount, creation timestamp
(milliseconds) and the entity ids the optional filters match on. -/
structure OrderRow where
  id : String
  status : OrderStatus
  totalAmount : ℚ
  createdAt : ℤ
  salesRepId : String
  outletId : String
deriving DecidableEq, Repr

/-- `OrderMetrics` from `src/lib/metrics/computations.ts`. -/
structure OrderMetrics where
  totalOrders : ℕ
  deliveredOrders : ℕ
  cancelledOrders : ℕ
  createdOrders : ℕ
  readyToShipOrders : ℕ
  cancelRate : ℚ
  totalRevenue : ℚ
  avgOrderValue : ℚ
deriving DecidableEq, Repr

/-- The `whereClause` selection of `getOrderMetrics`
(`src/lib/metrics/computations.ts` lines 113-129): `createdAt` between the
parsed `from` and `to` bounds via Prisma `gte`/`lte`, with the optional
`salesRepId`/`outletId` equality filters. -/
def windowOrders (fromDate toDate : ℤ) (repF outF : Option String)
    (orders : List OrderRow) : List OrderRow :=
  orders.filter (fun o =>
    decide (fromDate ≤ o.createdAt) && decide (o.createdAt ≤ toDate) &&
    (match repF with
     | some rid => decide (o.salesRepId = rid)
     | none => true) &&
    (match outF with
     | some oid => decide (o.outletId = oid)
     | none => true))

/-- `getOrderMetrics` from `src/lib/metrics/computations.ts` lines
105-154: counts the selected orders by status, revenue over `DELIVERED`
orders only, `cancelRate = cancelled/total` (0 when total is 0),
`avgOrderValue = revenue/delivered` (0 when delivered is 0), with the
reporting-time roundings. -/
def getOrderMetrics (fromDate toDate : ℤ) (repF outF : Option String)
    (orders : List OrderRow) : OrderMetrics :=
  let selected := windowOrders fromDate toDate repF outF orders
  let totalOrders := selected.length
  let deliveredOrders := (selected.filter (fun o => o.status = OrderStatus.DELIVERED)).length
  let cancelledOrders := (selected.filter (fun o => o.status = OrderStatus.CANCELLED)).length
  let createdOrders := (selected.filter (fun o => o.status = OrderStatus.CREATED)).length
  let readyToShipOrders :=
    (selected.filter (fun o => o.status = OrderStatus.READY_TO_SHIP)).length
  let totalRevenue :=
    ((selected.filter (fun o => o.status = OrderStatus.DELIVERED)).map
      OrderRow.totalAmount).sum
  let cancelRate := if 0 < totalOrders then (cancelledOrders : ℚ) / totalOrders else 0
  let avgOrderValue := if 0 < deliveredOrders then totalRevenue / deliveredOrders else 0
  { totalOrders := totalOrders
    deliveredOrders := deliveredOrders
    cancelledOrders := cancelledOrders
    createdOrders := createdOrders
    readyToShipOrders := readyToShipOrders
    cancelRate := roundTo 4 cancelRate
    totalRevenue := roundTo 2 totalRevenue
    avgOrderValue := roundTo 2 avgOrderValue }

/-- A calendar date-time inside one month: the month's number of days, the
1-based day of month, and the millisecond of the day (`0 ≤ msOfDay <
86400000`). -/
structure MonthDate where
  monthDays : ℕ
  day : ℕ
  msOfDay : ℕ
deriving DecidableEq, Repr

/-- Milliseconds per day, `1000 * 60 * 60 * 24`. -/
def msPerDay : ℕ := 86400000

/-- `endOfMonth(date).getTime() - date.getTime()`: date-fns `endOfMonth`
is the last millisecond (23:59:59.999) of the last day of the month. -/
def msToMonthEnd (d : MonthDate) : ℕ :=
  (d.monthDays - d.day) * msPerDay + (msPerDay - 1 - d.msOfDay)

/-- `isEndOfMonthDate` from `src/lib/metrics/computations.ts` lines 85-89:
`daysFromEnd = Math.ceil((monthEnd - date) / dayMs)`, end-of-month iff
`daysFromEnd <= 5` (ceiling division over naturals). -/
def isEndOfMonthDate (d : MonthDate) : Bool :=
  (msToMonthEnd d + (msPerDay - 1)) / msPerDay ≤ 5

/-- Follows the spec's words (not the source): the date "falls within the
last 5 calendar days of its month", i.e. its day of month is one of the
month's last five days. -/
def specLastFiveCalendarDays (d : MonthDate) : Bool :=
  d.monthDays ≤ d.day + 4

/-- A cancellation row as selected by `analyzePreShipCancellations`
(`src/lib/metrics/computations.ts` lines 319-331): reason and nullable
`hoursBeforeShipDate` (negative means cancelled after the planned ship
date). -/
structure CancellationRec where
  reason : String
  hoursBeforeShipDate : Option ℚ
deriving DecidableEq, Repr

/-- `PreShipCancelAnalysis` from `src/lib/metrics/computations.ts`
(`byReason` is the `Record<string, number>` of counts, modelled as the
count function with default 0). -/
structure PreShipCancelAnalysis where
  totalCancellations : ℕ
  preShipCancellations : ℕ
  preShipPercentage : ℚ
  byReason : String → ℕ

/-- `analyzePreShipCancellations` from `src/lib/metrics/computations.ts`
lines 311-356: among the window's cancellations, counts those with
non-null `hoursBeforeShipDate` satisfying
`hoursBeforeShipDate <= thresholdHours && hoursBeforeShipDate >= 0`, and
buckets all cancellations by reason. -/
def analyzePreShipCancellations (thresholdHours : ℚ)
    (cancellations : List CancellationRec) : PreShipCancelAnalysis :=
  let totalCancellations := cancellations.length
  let preShipCancellations := (cancellations.filter (fun c =>
    match c.hoursBeforeShipDate with
    | some h => decide (h ≤ thresholdHours) && decide (0 ≤ h)
    | none => false)).length
  { totalCancellations := totalCancellations
    preShipCancellations := preShipCancellations
    preShipPercentage :=
      if 0 < totalCancellations then
        roundTo 4 ((preShipCancellations : ℚ) / totalCancellations)
      else 0
    byReason := fun r => (cancellations.filter (fun c => c.reason = r)).length }

/-- `MAX_VERIFIED_DISTANCE` (200 meters), declared identically in the
check-in route and the photo route. -/
def MAX_VERIFIED_DISTANCE : ℚ := 200

/-- The outlet columns the check-in route reads: the registered
coordinate, both columns nullable. -/
structure OutletCoord where
  latitude : Option ℚ
  longitude : Option ℚ
deriving DecidableEq, Repr

/-- The `DISTANCE_TOO_FAR` audit flag created by the check-in route
(`src/app/api/visits/check-in/route.ts` lines 142-161): WARN severity,
meta carrying the check-in coordinate, the outlet coordinate, the distance
and the 200m threshold. -/
def mkDistanceFlag (visitId : String) (lat lng : ℚ) (outlet : OutletCoord)
    (distance : ℚ) : AuditFlagData :=
  { entityType := EntityType.VISIT
    entityId := visitId
    ruleCode := "DISTANCE_TOO_FAR"
    severity := FlagSeverity.WARN
    meta := FlagMeta.distanceMeta lat lng outlet.latitude outlet.longitude
      distance MAX_VERIFIED_DISTANCE
    visitLogId := some visitId }

/-- Outcome of the check-in route for one request: the computed distance,
the created visit's initial status and the audit flags created. -/
structure CheckInResult where
  distance : ℚ
  status : VisitStatus
  flags : List AuditFlagData
deriving Repr

/-- Core of `POST /api/visits/check-in`
(`src/app/api/visits/check-in/route.ts` lines 108-161): distance defaults
to 0 unless both outlet coordinates are present (then it is
`calculateDistance`, the haversine float computation, abstracted here as
the function argument `calcDistance`); initial status `PENDING` iff
`distance <= 200`, else `FLAGGED`; a WARN `DISTANCE_TOO_FAR` flag is
created only when `distance > 200`. -/
def checkInRoute (calcDistance : ℚ → ℚ → ℚ → ℚ → ℚ) (visitId : String)
    (outlet : OutletCoord) (latitude longitude : ℚ) : CheckInResult :=
  let distance :=
    match outlet.latitude, outlet.longitude with
    | some olat, some olng => calcDistance latitude longitude olat olng
    | _, _ => 0
  let status :=
    if distance ≤ MAX_VERIFIED_DISTANCE then VisitStatus.PENDING
    else VisitStatus.FLAGGED
  let flags :=
    if MAX_VERIFIED_DISTANCE < distance then
      [mkDistanceFlag visitId latitude longitude outlet distance]
    else []
  { distance := distance, status := status, flags := flags }

/-- A `VisitLog` row as read by the photo-upload route. -/
structure VisitLogRec where
  id : String
  salesRepId : String
  outletId : String
  distance : ℚ
  status : VisitStatus
  photoPath : Option String
  photoSha256 : Option String
deriving DecidableEq, Repr

/-- Error responses of the photo-upload route relevant to the model. -/
inductive PhotoUploadError where
  | visitNotFound
  | photoAlreadyUploaded
deriving DecidableEq, Repr

/-- HTTP status code attached to each photo-upload error response
(`notFoundResponse` is 404; the existing-photo `errorResponse` passes
409). -/
def photoUploadErrorStatus : PhotoUploadError → ℕ
  | PhotoUploadError.visitNotFound => 404
  | PhotoUploadError.photoAlreadyUploaded => 409

/-- Success payload of the photo-upload route (signed-URL fields of the
storage collaborator are not modelled). -/
structure PhotoUploadResponse where
  photoPath : String
  status : VisitStatus
  duplicateDetected : Bool
deriving DecidableEq, Repr

/-- Result of one photo-upload request: the response and the
post-request persistent state (visit rows and audit flags). -/
structure PhotoUploadOutcome where
  response : Except PhotoUploadError PhotoUploadResponse
  visits : List VisitLogRec
  flags : List AuditFlagData
deriving Repr

/-- The `DUPLICATE_PHOTO` audit flag created by the photo route
(`src/app/api/visits/[id]/photo/route.ts` lines 123-139): HIGH severity,
meta referencing the original visit id and the shared hash. -/
def mkDuplicateFlag (visitId originalVisitId sha : String) : AuditFlagData :=
  { entityType := EntityType.VISIT
    entityId := visitId
    ruleCode := "DUPLICATE_PHOTO"
    severity := FlagSeverity.HIGH
    meta := FlagMeta.duplicateMeta originalVisitId sha
    visitLogId := some visitId }

/-- Core of `POST /api/visits/[id]/photo`
(`src/app/api/visits/[id]/photo/route.ts` lines 25-156): 404 when the
visit does not exist; 409 (state untouched) when the visit already has a
photo; otherwise compute the content hash (`createHash('sha256')`,
abstracted as the function argument `hash`), look for another visit of the
same sales rep with the same hash, update the visit (photo path, hash, and
status `VERIFIED` iff `distance <= 200` else `FLAGGED`), and create a HIGH
`DUPLICATE_PHOTO` flag only when a duplicate was found. -/
def photoUploadRoute (hash : List ℕ → String) (visits : List VisitLogRec)
    (flags : List AuditFlagData) (visitId : String) (fileBytes : List ℕ)
    (path : String) : PhotoUploadOutcome :=
  match visits.find? (fun v => v.id = visitId) with
  | none =>
    { response := Except.error PhotoUploadError.visitNotFound
      visits := visits
      flags := flags }
  | some visitLog =>
    if visitLog.photoPath.isSome then
      { response := Except.error PhotoUploadError.photoAlreadyUploaded
        visits := visits
        flags := flags }
    else
      let photoSha256 := hash fileBytes
      let duplicatePhoto := visits.find? (fun v =>
        v.salesRepId = visitLog.salesRepId ∧ v.photoSha256 = some photoSha256 ∧
          ¬ v.id = visitId)
      let newStatus :=
        if visitLog.distance ≤ MAX_VERIFIED_DISTANCE then VisitStatus.VERIFIED
        else VisitStatus.FLAGGED
      let newVisits := visits.map (fun v =>
        if v.id = visitId then
          { v with
            photoPath := some path
            photoSha256 := some photoSha256
            status := newStatus }
        else v)
      let newFlags :=
        match duplicatePhoto with
        | some orig => flags ++ [mkDuplicateFlag visitId orig.id photoSha256]
        | none => flags
      { response := Except.ok
          { photoPath := path
            status := newStatus
            duplicateDetected := duplicatePhoto.isSome }
        visits := newVisits
        flags := newFlags }

/-- `EndOfMonthAnalysis` from `src/lib/metrics/computations.ts`. -/
structure EndOfMonthAnalysis where
  totalOrdersInPeriod : ℕ
  endOfMonthOrders : ℕ
  restOfMonthOrders : ℕ
  endOfMonthPercentage : ℚ
  expectedPercentage : ℚ
  spikeRatio : ℚ
  hasSpike : Bool
deriving DecidableEq, Repr

/-- `analyzeEndOfMonthSpike` from `src/lib/metrics/computations.ts` lines
266-306, over the creation dates of the window's orders: counts
end-of-month orders, compares the actual share against the fixed expected
baseline 0.1667, `spikeRatio = actual/expected` (`hasSpike` uses the
unrounded ratio; the reported `spikeRatio` is rounded to 2 decimals). -/
def analyzeEndOfMonthSpike (orderDates : List MonthDate) : EndOfMonthAnalysis :=
  let totalOrders := orderDates.length
  let endOfMonthOrders := (orderDates.filter isEndOfMonthDate).length
  let restOfMonthOrders := totalOrders - endOfMonthOrders
  let expectedPercentage : ℚ := 0.1667
  let actualPercentage : ℚ :=
    if 0 < totalOrders then (endOfMonthOrders : ℚ) / totalOrders else 0
  let spikeRatio :=
    if 0 < expectedPercentage then actualPercentage / expectedPercentage else 0
  { totalOrdersInPeriod := totalOrders
    endOfMonthOrders := endOfMonthOrders
    restOfMonthOrders := restOfMonthOrders
    endOfMonthPercentage := roundTo 4 actualPercentage
    expectedPercentage := expectedPercentage
    spikeRatio := roundTo 2 spikeRatio
    hasSpike := decide (1.5 < spikeRatio) }

/-- `checkEndOfMonthSpike` flag logic (`src/lib/fraud/rules.ts` lines
173-213): 5-sample gate on the period's total orders, HIGH at spike ratio
`≥ 2.0`, WARN at `≥ 1.5` (the WARN meta omits `expectedPercentage`, as in
the source). -/
def checkEndOfMonthSpikeFlags (analysis : EndOfMonthAnalysis) : List AuditFlagData :=
  if analysis.totalOrdersInPeriod < FRAUD_RULES_MIN_ORDERS_FOR_ANALYSIS then []
  else if FRAUD_RULES_END_OF_MONTH_SPIKE_HIGH ≤ analysis.spikeRatio then
    [{ entityType := EntityType.ORDER
       entityId := "SYSTEM"
       ruleCode := "END_OF_MONTH_SPIKE"
       severity := FlagSeverity.HIGH
       meta := FlagMeta.endOfMonthMeta analysis.endOfMonthOrders
         analysis.restOfMonthOrders analysis.endOfMonthPercentage
         analysis.spikeRatio (some analysis.expectedPercentage) }]
  else if FRAUD_RULES_END_OF_MONTH_SPIKE_WARN ≤ analysis.spikeRatio then
    [{ entityType := EntityType.ORDER
       entityId := "SYSTEM"
       ruleCode := "END_OF_MONTH_SPIKE"
       severity := FlagSeverity.WARN
       meta := FlagMeta.endOfMonthMeta analysis.endOfMonthOrders
         analysis.restOfMonthOrders analysis.endOfMonthPercentage
         analysis.spikeRatio none }]
  else []

/-- `checkPreShipCancellations` flag logic (`src/lib/fraud/rules.ts` lines
218-257): 5-sample gate on total cancellations, HIGH at pre-ship share
`≥ 0.2`, WARN at `≥ 0.1` (the HIGH meta carries the 24h threshold; the
source's `byReason` meta entry, a string-count record, is not modelled). -/
def checkPreShipCancellationsFlags (analysis : PreShipCancelAnalysis) :
    List AuditFlagData :=
  if analysis.totalCancellations < FRAUD_RULES_MIN_ORDERS_FOR_ANALYSIS then []
  else if FRAUD_RULES_PRE_SHIP_CANCEL_RATE_HIGH ≤ analysis.preShipPercentage then
    [{ entityType := EntityType.ORDER
       entityId := "SYSTEM"
       ruleCode := "PRE_SHIP_CANCEL"
       severity := FlagSeverity.HIGH
       meta := FlagMeta.preShipMeta analysis.preShipCancellations
         analysis.totalCancellations analysis.preShipPercentage
         (some FRAUD_RULES_PRE_SHIP_CANCEL_HOURS) }]
  else if FRAUD_RULES_PRE_SHIP_CANCEL_RATE_WARN ≤ analysis.preShipPercentage then
    [{ entityType := EntityType.ORDER
       entityId := "SYSTEM"
       ruleCode := "PRE_SHIP_CANCEL"
       severity := FlagSeverity.WARN
       meta := FlagMeta.preShipMeta analysis.preShipCancellations
         analysis.totalCancellations analysis.preShipPercentage none }]
  else []

-- Fallible rule checks: each `checkX` in `src/lib/fraud/rules.ts` awaits
-- one aggregator query and then runs pure flag logic; a storage failure
-- rejects that check's promise. The aggregator read is modelled as an
-- `Except` input and the check maps its pure logic over it.

/-- `checkSalesRepCancelRates` over a fallible `getSalesRepMetrics` read. -/
def checkSalesRepCancelRatesE {ε : Type} (metrics : Except ε (List SalesRepMetrics)) :
    Except ε (List AuditFlagData) :=
  metrics.map checkSalesRepCancelRates

/-- `checkOutletCancelRates` over a fallible `getOutletMetrics` read. -/
def checkOutletCancelRatesE {ε : Type} (metrics : Except ε (List OutletMetrics)) :
    Except ε (List AuditFlagData) :=
  metrics.map checkOutletCancelRates

/-- `checkEndOfMonthSpike` over a fallible order-dates read. -/
def checkEndOfMonthSpikeE {ε : Type} (orderDates : Except ε (List MonthDate)) :
    Except ε (List AuditFlagData) :=
  orderDates.map (fun dates => checkEndOfMonthSpikeFlags (analyzeEndOfMonthSpike dates))

/-- `checkPreShipCancellations` over a fallible cancellations read. -/
def checkPreShipCancellationsE {ε : Type} (cancels : Except ε (List CancellationRec)) :
    Except ε (List AuditFlagData) :=
  cancels.map (fun cs => checkPreShipCancellationsFlags
    (analyzePreShipCancellations FRAUD_RULES_PRE_SHIP_CANCEL_HOURS cs))

/-- `checkAbnormalOrders` over a fallible orders read (both
`findAbnormalOrders` passes query the same window). -/
def checkAbnormalOrdersE {ε : Type} (orders : Except ε (List OrderRec)) :
    Except ε (List AuditFlagData) :=
  orders.map checkAbnormalOrders

/-- The `summary` object of `RuleResult` (`src/lib/fraud/rules.ts` lines
64-72 and 347-352). -/
structure RuleSummary where
  totalFlags : ℕ
  highSeverity : ℕ
  warnSeverity : ℕ
  infoSeverity : ℕ
deriving DecidableEq, Repr

/-- `RuleResult` from `src/lib/fraud/rules.ts`. -/
structure RuleResult where
  flags : List AuditFlagData
  summary : RuleSummary
deriving DecidableEq, Repr

/-- The concatenation and severity tally of `runFraudDetectionRules`
(`src/lib/fraud/rules.ts` lines 339-356). -/
def mkRuleResult (allFlags : List AuditFlagData) : RuleResult :=
  { flags := allFlags
    summary :=
      { totalFlags := allFlags.length
        highSeverity := (allFlags.filter (fun f => f.severity = FlagSeverity.HIGH)).length
        warnSeverity := (allFlags.filter (fun f => f.severity = FlagSeverity.WARN)).length
        infoSeverity := (allFlags.filter (fun f => f.severity = FlagSeverity.INFO)).length } }

/-- `runFraudDetectionRules` from `src/lib/fraud/rules.ts` lines 321-357:
runs the five checks over their aggregator reads (`Promise.all`: the
whole batch fails as soon as any check's read fails, modelled by `Except`
sequencing) and concatenates the five flag lists with the severity
summary. -/
def runFraudDetectionRules {ε : Type} (repM : Except ε (List SalesRepMetrics))
    (outM : Except ε (List OutletMetrics)) (eomDates : Except ε (List MonthDate))
    (cancels : Except ε (List CancellationRec)) (orders : Except ε (List OrderRec)) :
    Except ε RuleResult :=
  Except.bind (checkSalesRepCancelRatesE repM) (fun salesRepCancelFlags =>
  Except.bind (checkOutletCancelRatesE outM) (fun outletCancelFlags =>
  Except.bind (checkEndOfMonthSpikeE eomDates) (fun endOfMonthFlags =>
  Except.bind (checkPreShipCancellationsE cancels) (fun preShipFlags =>
  Except.bind (checkAbnormalOrdersE orders) (fun abnormalOrderFlags =>
  Except.ok (mkRuleResult (salesRepCancelFlags ++ outletCancelFlags ++
    endOfMonthFlags ++ preShipFlags ++ abnormalOrderFlags)))))))

/-- A visit that already has a stored photo (path "p", hash "H"). -/
def visitWithPhoto : VisitLogRec :=
  ⟨"v1", "r1", "o1", 100, VisitStatus.VERIFIED, some "p", some "H"⟩

/-- A visit of the same sales rep still awaiting its photo. -/
def visitAwaitingPhoto : VisitLogRec :=
  ⟨"v2", "r1", "o2", 100, VisitStatus.PENDING, none, none⟩

/-- Concrete visit table used by the photo-upload witnesses. -/
def sampleVisits : List VisitLogRec := [visitWithPhoto, visitAwaitingPhoto]

/-- Concrete four-order window at outlet "X" (amounts 10, 10, 10, 60)
used to witness the abnormal-order rule. -/
def sampleAbnormalOrders : List OrderRec :=
  [⟨"a", "N1", "X", "Outlet X", 10⟩, ⟨"b", "N2", "X", "Outlet X", 10⟩,
   ⟨"c", "N3", "X", "Outlet X", 10⟩, ⟨"d", "N4", "X", "Outlet X", 60⟩]

-- ============================================
-- THEOREMS
-- ============================================

/-- Filtering a keyed `flatMap` by the key of a member recovers exactly that
member's contribution, when the keys are pairwise distinct. -/
theorem filter_flatMap_key {α β γ : Type} [DecidableEq γ] (key : α → γ) (K : β → γ)
    (f : α → List β) (hf : ∀ y, ∀ b ∈ f y, K b = key y) :
    ∀ (l : List α), (l.map key).Nodup → ∀ x ∈ l,
      (l.flatMap f).filter (fun b => K b = key x) = f x := by
  intro l
  induction l with
  | nil => intro _ x hx; cases hx
  | cons y l ih =>
    intro hnd x hx
    rw [List.map_cons, List.nodup_cons] at hnd
    rw [List.flatMap_cons, List.filter_append]
    rcases List.mem_cons.mp hx with hx | hx
    · subst hx
      have h1 : (f x).filter (fun b => K b = key x) = f x :=
        List.filter_eq_self.mpr (fun b hb => by
          simp only [decide_eq_true_eq]
          exact hf x b hb)
      have h2 : (l.flatMap f).filter (fun b => K b = key x) = [] := by
        apply List.filter_eq_nil_iff.mpr
        intro b hb
        simp only [decide_eq_true_eq]
        rcases List.mem_flatMap.mp hb with ⟨z, hz, hbz⟩
        rw [hf z b hbz]
        intro hcontra
        exact hnd.1 (hcontra ▸ List.mem_map_of_mem key hz)
      rw [h1, h2, List.append_nil]
    · have h1 : (f y).filter (fun b => K b = key x) = [] := by
        apply List.filter_eq_nil_iff.mpr
        intro b hb
        simp only [decide_eq_true_eq]
        rw [hf y b hb]
        intro hcontra
        exact hnd.1 (hcontra.symm ▸ List.mem_map_of_mem key hx)
      rw [h1, List.nil_append]
      exact ih hnd.2 x hx

/-- Every flag pushed by the sales-rep cancel-rate loop body is one of the
two flag objects for that rep. -/
theorem repCancelFlags_mem (y : SalesRepMetrics) (b : AuditFlagData)
    (hb : b ∈ repCancelFlags y) :
    b = mkRepCancelFlag y FlagSeverity.HIGH ∨ b = mkRepCancelFlag y FlagSeverity.WARN := by
  unfold repCancelFlags at hb
  split_ifs at hb
  · cases hb
  · exact Or.inl (List.mem_singleton.mp hb)
  · exact Or.inr (List.mem_singleton.mp hb)
  · cases hb

/-- Every flag pushed by the outlet cancel-rate loop body is one of the
two flag objects for that outlet. -/
theorem outletCancelFlags_mem (y : OutletMetrics) (b : AuditFlagData)
    (hb : b ∈ outletCancelFlags y) :
    b = mkOutletCancelFlag y FlagSeverity.HIGH ∨ b = mkOutletCancelFlag y FlagSeverity.WARN := by
  unfold outletCancelFlags at hb
  split_ifs at hb
  · cases hb
  · exact Or.inl (List.mem_singleton.mp hb)
  · exact Or.inr (List.mem_singleton.mp hb)
  · cases hb

/-- C1: for a sales rep row and an outlet row of the aggregator output
(entity ids pairwise distinct, as one row is produced per entity), the
cancel-rate rule emits, for that entity: nothing when it has fewer than 5
total orders in the window (whatever its cancel rate); a single HIGH
`HIGH_CANCEL_RATE` flag when it has at least 5 orders and cancel rate
`≥ 0.25`; a single WARN flag when it has at least 5 orders and cancel rate
in `[0.15, 0.25)` (so exactly `0.15` gives WARN and exactly `0.25` gives
HIGH); and nothing when its cancel rate is below `0.15`. -/
theorem cancelRate_rule_spec (reps : List SalesRepMetrics) (outs : List OutletMetrics)
    (rep : SalesRepMetrics) (outl : OutletMetrics)
    (hnr : (reps.map SalesRepMetrics.salesRepId).Nodup)
    (hno : (outs.map OutletMetrics.outletId).Nodup)
    (hrep : rep ∈ reps) (houtl : outl ∈ outs) :
    (rep.totalOrders < 5 →
      flagsForEntity (checkSalesRepCancelRates reps) EntityType.SALES_REP rep.salesRepId = []) ∧
    (5 ≤ rep.totalOrders → FRAUD_RULES_HIGH_CANCEL_RATE_HIGH ≤ rep.cancelRate →
      flagsForEntity (checkSalesRepCancelRates reps) EntityType.SALES_REP rep.salesRepId =
        [mkRepCancelFlag rep FlagSeverity.HIGH]) ∧
    (5 ≤ rep.totalOrders → FRAUD_RULES_HIGH_CANCEL_RATE_WARN ≤ rep.cancelRate →
      rep.cancelRate < FRAUD_RULES_HIGH_CANCEL_RATE_HIGH →
      flagsForEntity (checkSalesRepCancelRates reps) EntityType.SALES_REP rep.salesRepId =
        [mkRepCancelFlag rep FlagSeverity.WARN]) ∧
    (rep.cancelRate < FRAUD_RULES_HIGH_CANCEL_RATE_WARN →
      flagsForEntity (checkSalesRepCancelRates reps) EntityType.SALES_REP rep.salesRepId = []) ∧
    (outl.totalOrders < 5 →
      flagsForEntity (checkOutletCancelRates outs) EntityType.OUTLET outl.outletId = []) ∧
    (5 ≤ outl.totalOrders → FRAUD_RULES_HIGH_CANCEL_RATE_HIGH ≤ outl.cancelRate →
      flagsForEntity (checkOutletCancelRates outs) EntityType.OUTLET outl.outletId =
        [mkOutletCancelFlag outl FlagSeverity.HIGH]) ∧
    (5 ≤ outl.totalOrders → FRAUD_RULES_HIGH_CANCEL_RATE_WARN ≤ outl.cancelRate →
      outl.cancelRate < FRAUD_RULES_HIGH_CANCEL_RATE_HIGH →
      flagsForEntity (checkOutletCancelRates outs) EntityType.OUTLET outl.outletId =
        [mkOutletCancelFlag outl FlagSeverity.WARN]) ∧
    (outl.cancelRate < FRAUD_RULES_HIGH_CANCEL_RATE_WARN →
      flagsForEntity (checkOutletCancelRates outs) EntityType.OUTLET outl.outletId = []) := by
  have hrkey : (reps.map (fun r => (EntityType.SALES_REP, r.salesRepId))).Nodup := by
    have : reps.map (fun r => (EntityType.SALES_REP, r.salesRepId)) =
        (reps.map SalesRepMetrics.salesRepId).map (fun i => (EntityType.SALES_REP, i)) := by
      simp [List.map_map, Function.comp]
    rw [this]
    exact hnr.map (fun a b h => by simpa using h)
  have hokey : (outs.map (fun o => (EntityType.OUTLET, o.outletId))).Nodup := by
    have : outs.map (fun o => (EntityType.OUTLET, o.outletId)) =
        (outs.map OutletMetrics.outletId).map (fun i => (EntityType.OUTLET, i)) := by
      simp [List.map_map, Function.comp]
    rw [this]
    exact hno.map (fun a b h => by simpa using h)
  have hrfilter : flagsForEntity (checkSalesRepCancelRates reps)
      EntityType.SALES_REP rep.salesRepId = repCancelFlags rep := by
    have h := filter_flatMap_key (fun r : SalesRepMetrics => (EntityType.SALES_REP, r.salesRepId))
      (fun f : AuditFlagData => (f.entityType, f.entityId)) repCancelFlags
      (fun y b hb => by rcases repCancelFlags_mem y b hb with h | h <;> rw [h] <;> rfl)
      reps hrkey rep hrep
    unfold flagsForEntity checkSalesRepCancelRates
    rw [← h]
    congr 1
    funext f
    simp [Prod.ext_iff]
  have hofilter : flagsForEntity (checkOutletCancelRates outs)
      EntityType.OUTLET outl.outletId = outletCancelFlags outl := by
    have h := filter_flatMap_key (fun o : OutletMetrics => (EntityType.OUTLET, o.outletId))
      (fun f : AuditFlagData => (f.entityType, f.entityId)) outletCancelFlags
      (fun y b hb => by rcases outletCancelFlags_mem y b hb with h | h <;> rw [h] <;> rfl)
      outs hokey outl houtl
    unfold flagsForEntity checkOutletCancelRates
    rw [← h]
    congr 1
    funext f
    simp [Prod.ext_iff]
  rw [hrfilter, hofilter]
  unfold repCancelFlags outletCancelFlags FRAUD_RULES_MIN_ORDERS_FOR_ANALYSIS
  refine ⟨?_, ?_, ?_, ?_, ?_, ?_, ?_, ?_⟩
  · intro h; rw [if_pos h]
  · intro h1 h2; rw [if_neg (by omega), if_pos h2]
  · intro h1 h2 h3; rw [if_neg (by omega), if_neg (by exact not_le.mpr h3), if_pos h2]
  · intro h
    have hwlt : rep.cancelRate < FRAUD_RULES_HIGH_CANCEL_RATE_HIGH := by
      unfold FRAUD_RULES_HIGH_CANCEL_RATE_WARN at h
      unfold FRAUD_RULES_HIGH_CANCEL_RATE_HIGH
      calc rep.cancelRate < 0.15 := h
        _ ≤ 0.25 := by norm_num
    split
    · rfl
    · rw [if_neg (not_le.mpr hwlt), if_neg (not_le.mpr h)]
  · intro h; rw [if_pos h]
  · intro h1 h2; rw [if_neg (by omega), if_pos h2]
  · intro h1 h2 h3; rw [if_neg (by omega), if_neg (by exact not_le.mpr h3), if_pos h2]
  · intro h
    have hwlt : outl.cancelRate < FRAUD_RULES_HIGH_CANCEL_RATE_HIGH := by
      unfold FRAUD_RULES_HIGH_CANCEL_RATE_WARN at h
      unfold FRAUD_RULES_HIGH_CANCEL_RATE_HIGH
      calc outl.cancelRate < 0.15 := h
        _ ≤ 0.25 := by norm_num
    split
    · rfl
    · rw [if_neg (not_le.mpr hwlt), if_neg (not_le.mpr h)]

/-- Witness for C1: one rep with 20 orders, cancel rate 0.25 (HIGH at the
exact boundary) and one outlet with 4 orders, cancel rate 1 (below the
5-sample gate, no flag despite 100% cancellations). -/
theorem cancelRate_rule_spec_witness :
    flagsForEntity (checkSalesRepCancelRates
        [{ salesRepId := "r1", salesRepCode := "R1", salesRepName := "Rep One",
           totalOrders := 20, cancelledOrders := 5, cancelRate := 0.25,
           totalRevenue := 0, deliveredOrders := 10 }])
      EntityType.SALES_REP "r1" =
      [mkRepCancelFlag
        { salesRepId := "r1", salesRepCode := "R1", salesRepName := "Rep One",
          totalOrders := 20, cancelledOrders := 5, cancelRate := 0.25,
          totalRevenue := 0, deliveredOrders := 10 } FlagSeverity.HIGH] ∧
    flagsForEntity (checkOutletCancelRates
        [{ outletId := "o1", outletCode := "O1", outletName := "Outlet One",
           totalOrders := 4, cancelledOrders := 4, cancelRate := 1,
           totalRevenue := 0, avgOrderValue := 0 }])
      EntityType.OUTLET "o1" = [] := by
  have h := cancelRate_rule_spec
    [{ salesRepId := "r1", salesRepCode := "R1", salesRepName := "Rep One",
       totalOrders := 20, cancelledOrders := 5, cancelRate := 0.25,
       totalRevenue := 0, deliveredOrders := 10 }]
    [{ outletId := "o1", outletCode := "O1", outletName := "Outlet One",
       totalOrders := 4, cancelledOrders := 4, cancelRate := 1,
       totalRevenue := 0, avgOrderValue := 0 }]
    { salesRepId := "r1", salesRepCode := "R1", salesRepName := "Rep One",
      totalOrders := 20, cancelledOrders := 5, cancelRate := 0.25,
      totalRevenue := 0, deliveredOrders := 10 }
    { outletId := "o1", outletCode := "O1", outletName := "Outlet One",
      totalOrders := 4, cancelledOrders := 4, cancelRate := 1,
      totalRevenue := 0, avgOrderValue := 0 }
    (by decide) (by decide) (by simp) (by simp)
  exact ⟨h.2.1 (by norm_num) (by norm_num [FRAUD_RULES_HIGH_CANCEL_RATE_HIGH]),
    h.2.2.2.2.1 (by norm_num)⟩


/-- The ascending `mergeSort` used by `calculateMedian` returns the unique
sorted permutation of its input. -/
theorem mergeSort_eq_of_perm_of_sorted (l s : List ℚ) (hp : l.Perm s)
    (hs : s.Sorted (· ≤ ·)) : l.mergeSort (fun a b => a ≤ b) = s := by
  apply List.eq_of_perm_of_sorted ((List.mergeSort_perm l _).trans hp) _ hs
  have h := @List.sorted_mergeSort ℚ (fun a b : ℚ => decide (a ≤ b))
    (fun a b c hab hbc => by
      simp only [decide_eq_true_eq] at *
      exact le_trans hab hbc)
    (fun a b => by
      simp only [Bool.or_eq_true, decide_eq_true_eq]
      exact le_total a b) l
  exact h.imp (fun hab => of_decide_eq_true hab)

/-- Evaluation form of `calculateMedian` through any sorted permutation of
the input (usable on concrete lists, where kernel reduction cannot unfold
`mergeSort`). -/
theorem calculateMedian_of_sorted (values sorted : List ℚ) (hp : values.Perm sorted)
    (hs : sorted.Sorted (· ≤ ·)) (hne : values.length ≠ 0) :
    calculateMedian values =
      (if values.length % 2 ≠ 0 then sorted.getD (values.length / 2) 0
       else (sorted.getD (values.length / 2 - 1) 0 +
         sorted.getD (values.length / 2) 0) / 2) := by
  have hsort := mergeSort_eq_of_perm_of_sorted values sorted hp hs
  have hlen : sorted.length = values.length := hp.length_eq.symm
  unfold calculateMedian
  rw [if_neg hne, hsort]
  show (if sorted.length % 2 ≠ 0 then sorted.getD (sorted.length / 2) 0
    else (sorted.getD (sorted.length / 2 - 1) 0 +
      sorted.getD (sorted.length / 2) 0) / 2) = _
  rw [hlen]

/-- C3: for every sequence of rationals, `calculateMedian` of the empty
sequence is `0`, and for any sorted permutation `s` of the input `l`,
`calculateMedian l` is the middle element of `s` when the length is odd and
the average of the two central elements of `s` when the length is even
(the input is a pure value, so it is left unmodified by construction). -/
theorem calculateMedian_spec (l s : List ℚ) (hp : l.Perm s)
    (hs : s.Sorted (· ≤ ·)) :
    calculateMedian [] = 0 ∧
    calculateMedian l =
      (if l.length % 2 = 1 then s.getD (l.length / 2) 0
       else (s.getD (l.length / 2 - 1) 0 + s.getD (l.length / 2) 0) / 2) := by
  constructor
  · rfl
  · have hsort := mergeSort_eq_of_perm_of_sorted l s hp hs
    have hlen : s.length = l.length := hp.length_eq.symm
    rcases Decidable.em (l.length = 0) with h0 | h0
    · have hl : l = [] := List.length_eq_zero.mp h0
      have hsnil : s = [] := List.length_eq_zero.mp (hlen.trans h0)
      subst hl hsnil
      simp [calculateMedian]
    · unfold calculateMedian
      rw [if_neg h0, hsort]
      have hmods : l.length % 2 = 1 ∨ l.length % 2 = 0 := by omega
      rcases hmods with hm | hm
      · rw [if_pos (by rw [hlen, hm]; decide), if_pos hm, hlen]
      · rw [if_neg (by rw [hlen, hm]; simp), if_neg (by rw [hm]; simp), hlen]

/-- Witness for C3 at a concrete input: `[3, 1, 2]` has sorted permutation
`[1, 2, 3]` and median `2`. -/
theorem calculateMedian_spec_witness :
    calculateMedian [] = 0 ∧
    calculateMedian [(3 : ℚ), 1, 2] =
      (if ([(3 : ℚ), 1, 2] : List ℚ).length % 2 = 1 then
        ([(1 : ℚ), 2, 3] : List ℚ).getD (([(3 : ℚ), 1, 2] : List ℚ).length / 2) 0
       else (([(1 : ℚ), 2, 3] : List ℚ).getD (([(3 : ℚ), 1, 2] : List ℚ).length / 2 - 1) 0 +
         ([(1 : ℚ), 2, 3] : List ℚ).getD (([(3 : ℚ), 1, 2] : List ℚ).length / 2) 0) / 2) :=
  calculateMedian_spec [3, 1, 2] [1, 2, 3] (by decide) (by decide)

/-- Filtering a keyed `filterMap` by the key of a member recovers exactly
that member's contribution, when the keys are pairwise distinct. -/
theorem filter_filterMap_key {α β γ : Type} [DecidableEq γ] (key : α → γ) (K : β → γ)
    (f : α → Option β) (hf : ∀ y, ∀ b, f y = some b → K b = key y) :
    ∀ (l : List α), (l.map key).Nodup → ∀ x ∈ l,
      (l.filterMap f).filter (fun b => K b = key x) = (f x).toList := by
  intro l
  induction l with
  | nil => intro _ x hx; cases hx
  | cons y l ih =>
    intro hnd x hx
    rw [List.map_cons, List.nodup_cons] at hnd
    have hrest_nil : ∀ z, z ∈ l ∨ z = y → key y ∉ l.map key →
        (l.filterMap f).filter (fun b => K b = key y) = [] := by
      intro _ _ hny
      apply List.filter_eq_nil_iff.mpr
      intro b hb
      simp only [decide_eq_true_eq]
      rcases List.mem_filterMap.mp hb with ⟨z, hz, hbz⟩
      rw [hf z b hbz]
      intro hc
      exact hny (hc ▸ List.mem_map_of_mem key hz)
    rcases List.mem_cons.mp hx with hx | hx
    · subst hx
      cases hfy : f x with
      | none =>
        rw [List.filterMap_cons_none hfy]
        exact hrest_nil x (Or.inr rfl) hnd.1
      | some e =>
        rw [List.filterMap_cons_some hfy, List.filter_cons]
        rw [if_pos (by simp [hf x e hfy])]
        rw [hrest_nil x (Or.inr rfl) hnd.1]
        rfl
    · have hkey_ne : key y ≠ key x := by
        intro hc
        exact hnd.1 (hc.symm ▸ List.mem_map_of_mem key hx)
      cases hfy : f y with
      | none =>
        rw [List.filterMap_cons_none hfy]
        exact ih hnd.2 x hx
      | some e =>
        rw [List.filterMap_cons_some hfy, List.filter_cons]
        rw [if_neg (by simp [hf y e hfy, hkey_ne])]
        exact ih hnd.2 x hx

/-- Filtering the abnormal-order analysis by one order's id yields exactly
that order's entry (present or absent by the threshold test), when order
ids are pairwise distinct. -/
theorem findAbnormalOrders_filter (orders : List OrderRec) (t : ℚ) (o : OrderRec)
    (hnd : (orders.map OrderRec.id).Nodup) (ho : o ∈ orders) :
    (findAbnormalOrders orders t).filter (fun e => e.orderId = o.id) =
      (abnormalEntry (outletMedian orders o.outletId) t o).toList := by
  have hX := filter_filterMap_key OrderRec.id AbnormalOrderAnalysis.orderId
    (fun x => abnormalEntry (outletMedian orders x.outletId) t x)
    (fun y b hb => by
      simp only [abnormalEntry] at hb
      split_ifs at hb
      cases hb
      rfl)
    orders hnd o ho
  have hX' : ((orders.filterMap fun x =>
      abnormalEntry (outletMedian orders x.outletId) t x).filter
        (fun e => decide (e.orderId = o.id))) =
      (abnormalEntry (outletMedian orders o.outletId) t o).toList := hX
  unfold findAbnormalOrders
  cases habn : abnormalEntry (outletMedian orders o.outletId) t o with
  | none =>
    have hperm := (List.mergeSort_perm (orders.filterMap fun x =>
        abnormalEntry (outletMedian orders x.outletId) t x)
        (fun a b => b.ratio ≤ a.ratio)).filter
      (fun e => decide (e.orderId = o.id))
    rw [hX', habn] at hperm
    exact List.perm_nil.mp hperm
  | some e =>
    have hperm := (List.mergeSort_perm (orders.filterMap fun x =>
        abnormalEntry (outletMedian orders x.outletId) t x)
        (fun a b => b.ratio ≤ a.ratio)).filter
      (fun e => decide (e.orderId = o.id))
    rw [hX', habn] at hperm
    exact List.perm_singleton.mp hperm

/-- `checkAbnormalOrders` restricted to one order id: the HIGH-set flags
for that id followed by the WARN-set flags for that id not already flagged
HIGH. -/
theorem flagsForEntity_checkAbnormalOrders (orders : List OrderRec) (i : String) :
    flagsForEntity (checkAbnormalOrders orders) EntityType.ORDER i =
      ((findAbnormalOrders orders FRAUD_RULES_ABNORMAL_ORDER_MULTIPLIER_HIGH).filter
          (fun e => e.orderId = i)).map (fun a => mkAbnormalFlag a FlagSeverity.HIGH) ++
      (((findAbnormalOrders orders FRAUD_RULES_ABNORMAL_ORDER_MULTIPLIER_WARN).filter
          (fun a => ¬ a.orderId ∈ (findAbnormalOrders orders
            FRAUD_RULES_ABNORMAL_ORDER_MULTIPLIER_HIGH).map
              AbnormalOrderAnalysis.orderId)).filter
          (fun e => e.orderId = i)).map (fun a => mkAbnormalFlag a FlagSeverity.WARN) := by
  unfold checkAbnormalOrders flagsForEntity
  rw [List.filter_append, List.filter_map, List.filter_map]
  congr 1
  · congr 1
    apply List.filter_congr
    intro x _
    simp [mkAbnormalFlag, Function.comp]
  · congr 1
    apply List.filter_congr
    intro x _
    simp [mkAbnormalFlag, Function.comp]

/-- C2: for an order `o` of the window (order ids pairwise distinct) whose
outlet median is positive, the abnormal-order rule emits for that order:
exactly one flag of severity HIGH (and no WARN flag) when
`amount / outletMedian ≥ 5`; exactly one flag of severity WARN when
`3 ≤ amount / outletMedian < 5`; and no flag when the ratio is below 3 —
the engine computes the HIGH-threshold set first and suppresses its order
ids when emitting WARN flags. -/
theorem checkAbnormalOrders_spec (orders : List OrderRec) (o : OrderRec)
    (hnd : (orders.map OrderRec.id).Nodup) (ho : o ∈ orders)
    (hmed : 0 < outletMedian orders o.outletId) :
    (FRAUD_RULES_ABNORMAL_ORDER_MULTIPLIER_HIGH ≤
        o.totalAmount / outletMedian orders o.outletId →
      flagsForEntity (checkAbnormalOrders orders) EntityType.ORDER o.id =
        [mkAbnormalFlag (abnormalRecord (outletMedian orders o.outletId) o)
          FlagSeverity.HIGH]) ∧
    (FRAUD_RULES_ABNORMAL_ORDER_MULTIPLIER_WARN ≤
        o.totalAmount / outletMedian orders o.outletId →
      o.totalAmount / outletMedian orders o.outletId <
        FRAUD_RULES_ABNORMAL_ORDER_MULTIPLIER_HIGH →
      flagsForEntity (checkAbnormalOrders orders) EntityType.ORDER o.id =
        [mkAbnormalFlag (abnormalRecord (outletMedian orders o.outletId) o)
          FlagSeverity.WARN]) ∧
    (o.totalAmount / outletMedian orders o.outletId <
        FRAUD_RULES_ABNORMAL_ORDER_MULTIPLIER_WARN →
      flagsForEntity (checkAbnormalOrders orders) EntityType.ORDER o.id = []) := by
  have h5 := findAbnormalOrders_filter orders FRAUD_RULES_ABNORMAL_ORDER_MULTIPLIER_HIGH o hnd ho
  have h3 := findAbnormalOrders_filter orders FRAUD_RULES_ABNORMAL_ORDER_MULTIPLIER_WARN o hnd ho
  refine ⟨?_, ?_, ?_⟩
  · intro hhigh
    have h5cond : abnormalEntry (outletMedian orders o.outletId)
        FRAUD_RULES_ABNORMAL_ORDER_MULTIPLIER_HIGH o =
        some (abnormalRecord (outletMedian orders o.outletId) o) := by
      unfold abnormalEntry
      rw [if_pos ⟨hmed, hhigh⟩]
    rw [h5cond, Option.toList_some] at h5
    have hrecmem : abnormalRecord (outletMedian orders o.outletId) o ∈
        findAbnormalOrders orders FRAUD_RULES_ABNORMAL_ORDER_MULTIPLIER_HIGH := by
      apply List.mem_of_mem_filter (p := fun e => decide (e.orderId = o.id))
      rw [h5]
      exact List.mem_singleton_self _
    have hidmem : o.id ∈ (findAbnormalOrders orders
        FRAUD_RULES_ABNORMAL_ORDER_MULTIPLIER_HIGH).map AbnormalOrderAnalysis.orderId :=
      List.mem_map.mpr ⟨_, hrecmem, rfl⟩
    rw [flagsForEntity_checkAbnormalOrders, h5]
    have hwnil : (((findAbnormalOrders orders FRAUD_RULES_ABNORMAL_ORDER_MULTIPLIER_WARN).filter
        (fun a => ¬ a.orderId ∈ (findAbnormalOrders orders
          FRAUD_RULES_ABNORMAL_ORDER_MULTIPLIER_HIGH).map
            AbnormalOrderAnalysis.orderId)).filter
        (fun e => e.orderId = o.id)) = [] := by
      rw [List.filter_filter]
      apply List.filter_eq_nil_iff.mpr
      intro a _
      simp only [Bool.and_eq_true, decide_eq_true_eq, not_and]
      intro hid hnin
      exact hnin (hid.symm ▸ hidmem)
    rw [hwnil]
    rfl
  · intro hwarn hlt5
    have h5cond : abnormalEntry (outletMedian orders o.outletId)
        FRAUD_RULES_ABNORMAL_ORDER_MULTIPLIER_HIGH o = none := by
      unfold abnormalEntry
      rw [if_neg]
      rintro ⟨-, hcon⟩
      exact absurd hcon (not_le.mpr hlt5)
    rw [h5cond, Option.toList_none] at h5
    have h3cond : abnormalEntry (outletMedian orders o.outletId)
        FRAUD_RULES_ABNORMAL_ORDER_MULTIPLIER_WARN o =
        some (abnormalRecord (outletMedian orders o.outletId) o) := by
      unfold abnormalEntry
      rw [if_pos ⟨hmed, hwarn⟩]
    rw [h3cond, Option.toList_some] at h3
    have hno5 : ¬ o.id ∈ (findAbnormalOrders orders
        FRAUD_RULES_ABNORMAL_ORDER_MULTIPLIER_HIGH).map AbnormalOrderAnalysis.orderId := by
      intro hmem
      rcases List.mem_map.mp hmem with ⟨a, haX, haid⟩
      have hfil : a ∈ (findAbnormalOrders orders
          FRAUD_RULES_ABNORMAL_ORDER_MULTIPLIER_HIGH).filter
            (fun e => decide (e.orderId = o.id)) :=
        List.mem_filter.mpr ⟨haX, by simp [haid]⟩
      rw [h5] at hfil
      cases hfil
    rw [flagsForEntity_checkAbnormalOrders, h5]
    have hwfil : (((findAbnormalOrders orders FRAUD_RULES_ABNORMAL_ORDER_MULTIPLIER_WARN).filter
        (fun a => ¬ a.orderId ∈ (findAbnormalOrders orders
          FRAUD_RULES_ABNORMAL_ORDER_MULTIPLIER_HIGH).map
            AbnormalOrderAnalysis.orderId)).filter
        (fun e => e.orderId = o.id)) =
        (findAbnormalOrders orders FRAUD_RULES_ABNORMAL_ORDER_MULTIPLIER_WARN).filter
          (fun e => e.orderId = o.id) := by
      rw [List.filter_filter]
      apply List.filter_congr
      intro a _
      by_cases hid : a.orderId = o.id
      · simp [hid, hno5]
      · simp [hid]
    rw [hwfil, h3]
    rfl
  · intro hlt3
    have h5cond : abnormalEntry (outletMedian orders o.outletId)
        FRAUD_RULES_ABNORMAL_ORDER_MULTIPLIER_HIGH o = none := by
      unfold abnormalEntry
      rw [if_neg]
      rintro ⟨-, hcon⟩
      refine absurd hcon (not_le.mpr (lt_of_lt_of_le hlt3 ?_))
      norm_num [FRAUD_RULES_ABNORMAL_ORDER_MULTIPLIER_WARN,
        FRAUD_RULES_ABNORMAL_ORDER_MULTIPLIER_HIGH]
    have h3cond : abnormalEntry (outletMedian orders o.outletId)
        FRAUD_RULES_ABNORMAL_ORDER_MULTIPLIER_WARN o = none := by
      unfold abnormalEntry
      rw [if_neg]
      rintro ⟨-, hcon⟩
      exact absurd hcon (not_le.mpr hlt3)
    rw [h5cond, Option.toList_none] at h5
    rw [h3cond, Option.toList_none] at h3
    rw [flagsForEntity_checkAbnormalOrders, h5]
    have hwnil : (((findAbnormalOrders orders FRAUD_RULES_ABNORMAL_ORDER_MULTIPLIER_WARN).filter
        (fun a => ¬ a.orderId ∈ (findAbnormalOrders orders
          FRAUD_RULES_ABNORMAL_ORDER_MULTIPLIER_HIGH).map
            AbnormalOrderAnalysis.orderId)).filter
        (fun e => e.orderId = o.id)) = [] := by
      apply List.filter_eq_nil_iff.mpr
      intro a ha
      simp only [decide_eq_true_eq]
      intro hid
      have hfil : a ∈ (findAbnormalOrders orders
          FRAUD_RULES_ABNORMAL_ORDER_MULTIPLIER_WARN).filter
            (fun e => decide (e.orderId = o.id)) :=
        List.mem_filter.mpr ⟨List.mem_of_mem_filter ha, by simp [hid]⟩
      rw [h3] at hfil
      cases hfil
    rw [hwnil]
    rfl

/-- Witness for C2 at the spec's scenario shape: outlet "X" with orders of
amounts 10, 10, 10, 60 → outlet median 10, the 60 order has ratio 6 and
receives exactly one HIGH flag. -/
theorem checkAbnormalOrders_spec_witness :
    flagsForEntity (checkAbnormalOrders sampleAbnormalOrders) EntityType.ORDER "d" =
      [mkAbnormalFlag (abnormalRecord (outletMedian sampleAbnormalOrders "X")
        ⟨"d", "N4", "X", "Outlet X", 60⟩) FlagSeverity.HIGH] := by
  have hmed : outletMedian sampleAbnormalOrders "X" = 10 := by
    have h := calculateMedian_of_sorted [10, 10, 10, 60] [10, 10, 10, 60]
      (List.Perm.refl _) (by decide) (by decide)
    have h2 : outletMedian sampleAbnormalOrders "X" =
        calculateMedian [10, 10, 10, 60] := rfl
    rw [h2, h]
    norm_num
  have hmed4 : outletMedian sampleAbnormalOrders
      (⟨"d", "N4", "X", "Outlet X", 60⟩ : OrderRec).outletId = 10 := hmed
  exact (checkAbnormalOrders_spec sampleAbnormalOrders
    ⟨"d", "N4", "X", "Outlet X", 60⟩
    (by decide) (by decide) (by rw [hmed4]; norm_num)).1
    (by rw [hmed4]; norm_num [FRAUD_RULES_ABNORMAL_ORDER_MULTIPLIER_HIGH])

/-- C4 counterexample: the claim says a record whose creation timestamp
equals the upper endpoint `to` is excluded, but the selection uses Prisma
`lte` (closed interval): with window `[0, 100]`, an order created exactly
at `100` is selected and counted. -/
theorem orderMetrics_upper_endpoint_included :
    (⟨"o1", OrderStatus.DELIVERED, 50, 100, "r1", "x1"⟩ : OrderRow) ∈
      windowOrders 0 100 none none
        [⟨"o1", OrderStatus.DELIVERED, 50, 100, "r1", "x1"⟩] ∧
    (getOrderMetrics 0 100 none none
        [⟨"o1", OrderStatus.DELIVERED, 50, 100, "r1", "x1"⟩]).totalOrders = 1 := by
  constructor
  · decide
  · rfl

/-- C4 amended: the metrics selection interval is closed on both ends: a
record is selected exactly when `from ≤ createdAt ∧ createdAt ≤ to` (and
it passes the optional entity filters); in particular a record with
creation timestamp equal to `to` is included, not excluded. -/
theorem orderMetrics_window_closed (fromDate toDate : ℤ) (repF outF : Option String)
    (orders : List OrderRow) (o : OrderRow) :
    (o ∈ windowOrders fromDate toDate repF outF orders ↔
      o ∈ orders ∧ (fromDate ≤ o.createdAt ∧ o.createdAt ≤ toDate) ∧
        (∀ rid, repF = some rid → o.salesRepId = rid) ∧
        (∀ oid, outF = some oid → o.outletId = oid)) ∧
    (getOrderMetrics fromDate toDate repF outF orders).totalOrders =
      (windowOrders fromDate toDate repF outF orders).length := by
  constructor
  · unfold windowOrders
    cases repF <;> cases outF <;>
      simp [List.mem_filter, and_assoc]
  · rfl

/-- Witness for C4 amended: with window `[0, 100]`, the boundary order at
timestamp 100 is a member of the selection. -/
theorem orderMetrics_window_closed_witness :
    (⟨"o1", OrderStatus.DELIVERED, 50, 100, "r1", "x1"⟩ : OrderRow) ∈
      windowOrders 0 100 none none
        [⟨"o1", OrderStatus.DELIVERED, 50, 100, "r1", "x1"⟩] := by
  apply ((orderMetrics_window_closed 0 100 none none
      [⟨"o1", OrderStatus.DELIVERED, 50, 100, "r1", "x1"⟩]
      ⟨"o1", OrderStatus.DELIVERED, 50, 100, "r1", "x1"⟩).1).mpr
  refine ⟨List.mem_singleton_self _, ⟨by norm_num, by norm_num⟩, ?_, ?_⟩
  · intro rid h
    cases h
  · intro oid h
    cases h

/-- C5 counterexample: in a 30-day month, the last millisecond
(23:59:59.999) of day 25 — the sixth-to-last calendar day, hence not
within the last 5 calendar days — is exactly 5 · 24h before the month-end
instant, so `Math.ceil` gives 5 and the code classifies it as
end-of-month, contradicting the claim's "exactly when it falls within the
last 5 calendar days". -/
theorem isEndOfMonthDate_sixth_day_boundary :
    1 ≤ (⟨30, 25, 86399999⟩ : MonthDate).day ∧
    (⟨30, 25, 86399999⟩ : MonthDate).day ≤ (⟨30, 25, 86399999⟩ : MonthDate).monthDays ∧
    (⟨30, 25, 86399999⟩ : MonthDate).msOfDay < msPerDay ∧
    isEndOfMonthDate ⟨30, 25, 86399999⟩ = true ∧
    specLastFiveCalendarDays ⟨30, 25, 86399999⟩ = false := by
  refine ⟨by decide, by decide, by decide, ?_, by decide⟩
  decide

/-- C5 amended: for a valid date, the code classifies it as end-of-month
exactly when it falls within the last 5 calendar days of its month OR it
is the final millisecond (23:59:59.999) of the sixth-to-last day (the
single instant exactly 5 · 24h before the month-end instant, which the
millisecond-based ceiling also counts). -/
theorem isEndOfMonthDate_spec (d : MonthDate) (_h1 : 1 ≤ d.day)
    (h2 : d.day ≤ d.monthDays) (h3 : d.msOfDay < msPerDay) :
    isEndOfMonthDate d = true ↔
      (specLastFiveCalendarDays d = true ∨
        (d.day + 5 = d.monthDays ∧ d.msOfDay = msPerDay - 1)) := by
  unfold isEndOfMonthDate specLastFiveCalendarDays msToMonthEnd msPerDay at *
  simp only [decide_eq_true_eq]
  omega

/-- Witness for C5 amended: midnight of day 26 in a 30-day month (one of
the last 5 calendar days) is classified end-of-month. -/
theorem isEndOfMonthDate_spec_witness :
    isEndOfMonthDate ⟨30, 26, 0⟩ = true :=
  (isEndOfMonthDate_spec ⟨30, 26, 0⟩ (by decide) (by decide) (by decide)).mpr
    (Or.inl (by decide))

/-- C6: for every threshold and cancellation list, the pre-ship bucket
counts exactly the cancellations whose (non-null) `hoursBeforeShipDate`
satisfies `0 ≤ hoursBeforeShipDate ≤ thresholdHours` — so cancellations
with negative hours (after the planned ship date) are excluded from it —
while the total and the by-reason buckets count every cancellation,
negative hours included. -/
theorem analyzePreShipCancellations_spec (thresholdHours : ℚ)
    (cancellations : List CancellationRec) :
    (analyzePreShipCancellations thresholdHours cancellations).preShipCancellations =
      cancellations.countP (fun c =>
        match c.hoursBeforeShipDate with
        | some h => decide (0 ≤ h ∧ h ≤ thresholdHours)
        | none => false) ∧
    (analyzePreShipCancellations thresholdHours cancellations).totalCancellations =
      cancellations.length ∧
    (∀ r, (analyzePreShipCancellations thresholdHours cancellations).byReason r =
      cancellations.countP (fun c => c.reason = r)) := by
  refine ⟨?_, rfl, ?_⟩
  · show (cancellations.filter (fun c =>
        match c.hoursBeforeShipDate with
        | some h => decide (h ≤ thresholdHours) && decide (0 ≤ h)
        | none => false)).length = _
    rw [List.countP_eq_length_filter]
    congr 1
    apply List.filter_congr
    intro c _
    cases c.hoursBeforeShipDate with
    | none => rfl
    | some h => simp [Bool.and_comm]
  · intro r
    show (cancellations.filter (fun c => c.reason = r)).length = _
    rw [List.countP_eq_length_filter]

/-- C7: for every check-in (with the haversine computation abstracted as
`calcDistance`): if the outlet lacks a registered latitude or longitude
the computed distance defaults to 0; the visit's initial status is
`PENDING` exactly when the distance is ≤ 200 meters and `FLAGGED` exactly
when it exceeds 200; and the flag list is exactly the single WARN
`DISTANCE_TOO_FAR` flag — which carries both coordinates and the 200m
threshold in its meta, by definition of `mkDistanceFlag` — iff the status
is `FLAGGED`, and empty iff the status is `PENDING`. -/
theorem checkIn_route_spec (calcDistance : ℚ → ℚ → ℚ → ℚ → ℚ) (visitId : String)
    (outlet : OutletCoord) (lat lng : ℚ) :
    ((outlet.latitude = none ∨ outlet.longitude = none) →
      (checkInRoute calcDistance visitId outlet lat lng).distance = 0) ∧
    ((checkInRoute calcDistance visitId outlet lat lng).status = VisitStatus.PENDING ↔
      (checkInRoute calcDistance visitId outlet lat lng).distance ≤ 200) ∧
    ((checkInRoute calcDistance visitId outlet lat lng).status = VisitStatus.FLAGGED ↔
      200 < (checkInRoute calcDistance visitId outlet lat lng).distance) ∧
    ((checkInRoute calcDistance visitId outlet lat lng).flags =
        [mkDistanceFlag visitId lat lng outlet
          (checkInRoute calcDistance visitId outlet lat lng).distance] ↔
      (checkInRoute calcDistance visitId outlet lat lng).status = VisitStatus.FLAGGED) ∧
    ((checkInRoute calcDistance visitId outlet lat lng).flags = [] ↔
      (checkInRoute calcDistance visitId outlet lat lng).status = VisitStatus.PENDING) := by
  constructor
  · intro h
    rcases h with h | h
    · simp [checkInRoute, h]
    · cases hl : outlet.latitude <;> simp [checkInRoute, h, hl]
  · obtain ⟨D, hD⟩ : ∃ D, checkInRoute calcDistance visitId outlet lat lng =
        { distance := D
          status := if D ≤ MAX_VERIFIED_DISTANCE then VisitStatus.PENDING
            else VisitStatus.FLAGGED
          flags := if MAX_VERIFIED_DISTANCE < D then
            [mkDistanceFlag visitId lat lng outlet D] else [] } := ⟨_, rfl⟩
    rw [hD]
    by_cases hle : D ≤ MAX_VERIFIED_DISTANCE
    · have hle2 : D ≤ 200 := by simpa [MAX_VERIFIED_DISTANCE] using hle
      have hnlt : ¬ MAX_VERIFIED_DISTANCE < D := not_lt.mpr hle
      rw [if_pos hle, if_neg hnlt]
      exact ⟨by simp [hle2], by simp [not_lt.mpr hle2], by simp, by simp⟩
    · have hgt : MAX_VERIFIED_DISTANCE < D := not_le.mp hle
      have hgt2 : 200 < D := by simpa [MAX_VERIFIED_DISTANCE] using hgt
      rw [if_neg hle, if_pos hgt]
      exact ⟨by simp [not_le.mpr hgt2], by simp [hgt2], by simp, by simp⟩

/-- Witness for C7: a distance oracle returning 250m with a registered
outlet coordinate yields status `FLAGGED` and exactly the distance flag. -/
theorem checkIn_route_spec_witness :
    (checkInRoute (fun _ _ _ _ => 250) "v1" ⟨some 1, some 2⟩ 3 4).status =
      VisitStatus.FLAGGED ∧
    (checkInRoute (fun _ _ _ _ => 250) "v1" ⟨some 1, some 2⟩ 3 4).flags =
      [mkDistanceFlag "v1" 3 4 ⟨some 1, some 2⟩
        (checkInRoute (fun _ _ _ _ => 250) "v1" ⟨some 1, some 2⟩ 3 4).distance] := by
  have h := checkIn_route_spec (fun _ _ _ _ => 250) "v1" ⟨some 1, some 2⟩ 3 4
  have hd : (checkInRoute (fun _ _ _ _ => 250) "v1" ⟨some 1, some 2⟩ 3 4).distance =
      250 := rfl
  have hstat := (h.2.2.1).mpr (by rw [hd]; norm_num)
  exact ⟨hstat, (h.2.2.2.1).mpr hstat⟩

/-- Updating the rows matched by a `find?` predicate commutes with the
lookup, when the update preserves the predicate. -/
theorem find?_map_update {α : Type} (g : α → α) (q : α → Prop) [DecidablePred q]
    (hg : ∀ w, q (g w) ↔ q w) :
    ∀ (l : List α) (v : α), l.find? (fun w => q w) = some v →
      (l.map (fun w => if q w then g w else w)).find? (fun w => q w) = some (g v) := by
  intro l
  induction l with
  | nil => intro v h; cases h
  | cons u rest ih =>
    intro v h
    by_cases hu : q u
    · rw [@List.find?_cons_of_pos _ (fun w => decide (q w)) u rest
        (decide_eq_true hu)] at h
      cases h
      rw [List.map_cons, if_pos hu]
      exact @List.find?_cons_of_pos _ (fun w => decide (q w)) (g u)
        (List.map (fun w => if q w then g w else w) rest)
        (decide_eq_true ((hg u).mpr hu))
    · rw [@List.find?_cons_of_neg _ (fun w => decide (q w)) u rest
        (by simpa using hu)] at h
      rw [List.map_cons, if_neg hu,
        @List.find?_cons_of_neg _ (fun w => decide (q w)) u
          (List.map (fun w => if q w then g w else w) rest) (by simpa using hu)]
      exact ih v h

/-- C10: when the visit already has a stored photo path, the upload
request is answered with the conflict error (HTTP 409) and the visit rows
and the audit-flag set are left exactly as they were — no hash, upload,
status change or flag creation happens. -/
theorem photoUpload_conflict_spec (hash : List ℕ → String) (visits : List VisitLogRec)
    (flags : List AuditFlagData) (visitId : String) (fileBytes : List ℕ) (path : String)
    (v : VisitLogRec) (hfind : visits.find? (fun w => w.id = visitId) = some v)
    (hphoto : v.photoPath.isSome) :
    (photoUploadRoute hash visits flags visitId fileBytes path).response =
      Except.error PhotoUploadError.photoAlreadyUploaded ∧
    photoUploadErrorStatus PhotoUploadError.photoAlreadyUploaded = 409 ∧
    (photoUploadRoute hash visits flags visitId fileBytes path).visits = visits ∧
    (photoUploadRoute hash visits flags visitId fileBytes path).flags = flags := by
  have hroute : photoUploadRoute hash visits flags visitId fileBytes path =
      { response := Except.error PhotoUploadError.photoAlreadyUploaded
        visits := visits
        flags := flags } := by
    simp only [photoUploadRoute, hfind]
    rw [if_pos hphoto]
  rw [hroute]
  exact ⟨rfl, rfl, rfl, rfl⟩

/-- Witness for C10: uploading to visit "v1", which already stores a
photo, yields the 409 conflict and leaves visits and flags untouched. -/
theorem photoUpload_conflict_spec_witness :
    (photoUploadRoute (fun _ => "H2") sampleVisits [] "v1" [0] "p2").response =
      Except.error PhotoUploadError.photoAlreadyUploaded ∧
    photoUploadErrorStatus PhotoUploadError.photoAlreadyUploaded = 409 ∧
    (photoUploadRoute (fun _ => "H2") sampleVisits [] "v1" [0] "p2").visits =
      sampleVisits ∧
    (photoUploadRoute (fun _ => "H2") sampleVisits [] "v1" [0] "p2").flags = [] :=
  photoUpload_conflict_spec (fun _ => "H2") sampleVisits [] "v1" [0] "p2"
    visitWithPhoto rfl rfl

/-- C8: for a photo upload to an existing visit `v` that has no photo yet:
the audit-flag set changes iff the same sales rep has some other visit (a
different id) whose stored photo hash equals the hash of the uploaded
bytes; when the duplicate lookup finds `w`, exactly one HIGH
`DUPLICATE_PHOTO` flag referencing `w` is appended; the response status is
`VERIFIED` iff `v.distance ≤ 200` and `FLAGGED` otherwise — the same
expression whether or not a duplicate was found — and the stored visit row
is updated to that same distance-determined status. -/
theorem photoUpload_spec (hash : List ℕ → String) (visits : List VisitLogRec)
    (flags : List AuditFlagData) (visitId : String) (fileBytes : List ℕ) (path : String)
    (v : VisitLogRec) (hfind : visits.find? (fun w => w.id = visitId) = some v)
    (hphoto : v.photoPath = none) :
    ((photoUploadRoute hash visits flags visitId fileBytes path).flags ≠ flags ↔
      ∃ w ∈ visits, w.salesRepId = v.salesRepId ∧
        w.photoSha256 = some (hash fileBytes) ∧ ¬ w.id = visitId) ∧
    (∀ w, visits.find? (fun u => u.salesRepId = v.salesRepId ∧
        u.photoSha256 = some (hash fileBytes) ∧ ¬ u.id = visitId) = some w →
      (photoUploadRoute hash visits flags visitId fileBytes path).flags =
        flags ++ [mkDuplicateFlag visitId w.id (hash fileBytes)]) ∧
    ((photoUploadRoute hash visits flags visitId fileBytes path).response =
      Except.ok
        { photoPath := path
          status := if v.distance ≤ 200 then VisitStatus.VERIFIED
            else VisitStatus.FLAGGED
          duplicateDetected := (visits.find? (fun u => u.salesRepId = v.salesRepId ∧
            u.photoSha256 = some (hash fileBytes) ∧ ¬ u.id = visitId)).isSome }) ∧
    ((photoUploadRoute hash visits flags visitId fileBytes path).visits.find?
        (fun w => w.id = visitId) =
      some { v with
        photoPath := some path
        photoSha256 := some (hash fileBytes)
        status := if v.distance ≤ 200 then VisitStatus.VERIFIED
          else VisitStatus.FLAGGED }) := by
  have hroute : photoUploadRoute hash visits flags visitId fileBytes path =
      { response := Except.ok
          { photoPath := path
            status := if v.distance ≤ 200 then VisitStatus.VERIFIED
              else VisitStatus.FLAGGED
            duplicateDetected := (visits.find? (fun u => u.salesRepId = v.salesRepId ∧
              u.photoSha256 = some (hash fileBytes) ∧ ¬ u.id = visitId)).isSome }
        visits := visits.map (fun w =>
          if w.id = visitId then
            { w with
              photoPath := some path
              photoSha256 := some (hash fileBytes)
              status := if v.distance ≤ 200 then VisitStatus.VERIFIED
                else VisitStatus.FLAGGED }
          else w)
        flags :=
          match visits.find? (fun u => u.salesRepId = v.salesRepId ∧
              u.photoSha256 = some (hash fileBytes) ∧ ¬ u.id = visitId) with
          | some orig => flags ++ [mkDuplicateFlag visitId orig.id (hash fileBytes)]
          | none => flags } := by
    simp only [photoUploadRoute, hfind]
    rw [if_neg (by simp [hphoto])]
    rfl
  rw [hroute]
  dsimp only
  refine ⟨?_, ?_, rfl, ?_⟩
  · cases hdup : visits.find? (fun u => u.salesRepId = v.salesRepId ∧
        u.photoSha256 = some (hash fileBytes) ∧ ¬ u.id = visitId) with
    | none =>
      rw [List.find?_eq_none] at hdup
      simp only [ne_eq, not_true_eq_false, false_iff]
      rintro ⟨w, hwmem, h1, h2, h3⟩
      exact hdup w hwmem (by simp [h1, h2, h3])
    | some w =>
      have hw := List.find?_some hdup
      have hwmem := List.mem_of_find?_eq_some hdup
      simp only [decide_eq_true_eq] at hw
      constructor
      · intro _
        exact ⟨w, hwmem, hw.1, hw.2.1, hw.2.2⟩
      · intro _ hcon
        have hlen := congrArg List.length hcon
        simp at hlen
  · intro w hw
    rw [hw]
  · exact find?_map_update
      (fun w => { w with
        photoPath := some path
        photoSha256 := some (hash fileBytes)
        status := if v.distance ≤ 200 then VisitStatus.VERIFIED
          else VisitStatus.FLAGGED })
      (fun w => w.id = visitId) (fun w => Iff.rfl) visits v hfind

/-- Witness for C8: uploading bytes hashing to "H" for visit "v2" finds
the same rep's visit "v1" with stored hash "H": exactly one HIGH
`DUPLICATE_PHOTO` flag referencing "v1" is created, and the status is
`VERIFIED` (distance 100 ≤ 200) despite the duplicate. -/
theorem photoUpload_spec_witness :
    (photoUploadRoute (fun _ => "H") sampleVisits [] "v2" [0] "p2").flags =
      [mkDuplicateFlag "v2" "v1" "H"] ∧
    (photoUploadRoute (fun _ => "H") sampleVisits [] "v2" [0] "p2").response =
      Except.ok { photoPath := "p2", status := VisitStatus.VERIFIED
                  duplicateDetected := true } := by
  have h := photoUpload_spec (fun _ => "H") sampleVisits [] "v2" [0] "p2"
    visitAwaitingPhoto rfl rfl
  exact ⟨h.2.1 visitWithPhoto rfl, h.2.2.1⟩

/-- C9: if any one of the five rule checks' aggregator reads fails, the
whole-batch evaluation returns that failure (the first in the fixed check
order) instead of a flag list; and it returns a flag list only when every
one of the five reads succeeded. -/
theorem runFraudDetectionRules_spec {ε : Type} (repM : Except ε (List SalesRepMetrics))
    (outM : Except ε (List OutletMetrics)) (eomDates : Except ε (List MonthDate))
    (cancels : Except ε (List CancellationRec)) (orders : Except ε (List OrderRec))
    (e : ε) :
    (repM = Except.error e →
      runFraudDetectionRules repM outM eomDates cancels orders = Except.error e) ∧
    ((∃ x, repM = Except.ok x) → outM = Except.error e →
      runFraudDetectionRules repM outM eomDates cancels orders = Except.error e) ∧
    ((∃ x, repM = Except.ok x) → (∃ x, outM = Except.ok x) →
      eomDates = Except.error e →
      runFraudDetectionRules repM outM eomDates cancels orders = Except.error e) ∧
    ((∃ x, repM = Except.ok x) → (∃ x, outM = Except.ok x) →
      (∃ x, eomDates = Except.ok x) → cancels = Except.error e →
      runFraudDetectionRules repM outM eomDates cancels orders = Except.error e) ∧
    ((∃ x, repM = Except.ok x) → (∃ x, outM = Except.ok x) →
      (∃ x, eomDates = Except.ok x) → (∃ x, cancels = Except.ok x) →
      orders = Except.error e →
      runFraudDetectionRules repM outM eomDates cancels orders = Except.error e) ∧
    (∀ r, runFraudDetectionRules repM outM eomDates cancels orders = Except.ok r →
      (∃ x, repM = Except.ok x) ∧ (∃ x, outM = Except.ok x) ∧
      (∃ x, eomDates = Except.ok x) ∧ (∃ x, cancels = Except.ok x) ∧
      (∃ x, orders = Except.ok x)) := by
  cases repM <;> cases outM <;> cases eomDates <;> cases cancels <;> cases orders <;>
    simp [runFraudDetectionRules, checkSalesRepCancelRatesE, checkOutletCancelRatesE,
      checkEndOfMonthSpikeE, checkPreShipCancellationsE, checkAbnormalOrdersE,
      Except.bind, Except.map]

/-- Witness for C9: a failing sales-rep metrics read (error 7) with the
other four reads succeeding makes the whole batch return error 7. -/
theorem runFraudDetectionRules_spec_witness :
    runFraudDetectionRules (Except.error 7) (Except.ok ([] : List OutletMetrics))
      (Except.ok ([] : List MonthDate)) (Except.ok ([] : List CancellationRec))
      (Except.ok ([] : List OrderRec)) = Except.error 7 :=
  (runFraudDetectionRules_spec (Except.error 7) (Except.ok [])
    (Except.ok []) (Except.ok []) (Except.ok []) 7).1 rfl
